import Mathlib

/-!
Shallow embedding of the token-acquisition core of a GitHub-App token action
backed by AWS KMS signing.  The embedded source files are
`src/lib/kms-auth.js` (KMS signer, JWT builder, installation-auth exchange),
`src/lib/main.js` (scope parsing, retry coordination, output emission) and the
entrypoint (input validation).  JavaScript strings become `String`, byte
buffers become `List Nat`, absent values (`undefined`) become `Option`, thrown
errors become `Except`, and observable side effects (network calls, console
output, runner commands) become explicit traces.
-/

/-- JavaScript string truthiness: the empty string is falsy, all others truthy
(used by `if (owner)`, `if (providedInstallationId)` etc. in main.js). -/
def jsTruthyString (s : String) : Bool :=
  !s.isEmpty

/-- The standard base64 alphabet, as used by Node's
`Buffer.toString("base64")` (kms-auth.js lines 30-34, 61-71). -/
def b64Alphabet : List Char :=
  "ABCDEFGHIJKLMNOPQRSTUVWXYZabcdefghijklmnopqrstuvwxyz0123456789+/".toList

/-- The base64 digit for a 6-bit value. -/
def b64Char (n : Nat) : Char :=
  b64Alphabet.getD n 'A'

/-- Standard base64 encoding (with `=` padding) of a byte sequence, as
produced by `Buffer.from(bytes).toString("base64")`. -/
def base64Encode : List Nat → List Char
  | [] => []
  | [b1] =>
      [b64Char (b1 / 4), b64Char (b1 % 4 * 16), '=', '=']
  | [b1, b2] =>
      [b64Char (b1 / 4), b64Char (b1 % 4 * 16 + b2 / 16), b64Char (b2 % 16 * 4), '=']
  | b1 :: b2 :: b3 :: rest =>
      b64Char (b1 / 4) :: b64Char (b1 % 4 * 16 + b2 / 16) ::
      b64Char (b2 % 16 * 4 + b3 / 64) :: b64Char (b3 % 64) :: base64Encode rest

/-- The character map of `.replace(/\+/g, "-")`. -/
def swapPlusToMinus (c : Char) : Char :=
  if c = '+' then '-' else c

/-- The character map of `.replace(/\//g, "_")`. -/
def swapSlashToUnderscore (c : Char) : Char :=
  if c = '/' then '_' else c

/-- The base64url conversion of kms-auth.js: standard base64, then
`.replace(/\+/g,"-").replace(/\//g,"_").replace(/=/g,"")`.  The identical
three-step chain appears at lines 30-34 (signature bytes), 61-65 (header) and
67-71 (payload); this single definition embeds all three occurrences. -/
def toBase64Url (bytes : List Nat) : String :=
  String.mk ((((base64Encode bytes).map swapPlusToMinus).map
    swapSlashToUnderscore).filter (fun c => c ≠ '='))

/-- UTF-8 encoding of one code point. -/
def utf8EncodeChar (n : Nat) : List Nat :=
  if n < 128 then [n]
  else if n < 2048 then [192 + n / 64, 128 + n % 64]
  else if n < 65536 then [224 + n / 4096, 128 + n / 64 % 64, 128 + n % 64]
  else [240 + n / 262144, 128 + n / 4096 % 64, 128 + n / 64 % 64, 128 + n % 64]

/-- UTF-8 bytes of a string, as produced by `Buffer.from(s)` /
`Buffer.from(s, "utf8")`. -/
def utf8Bytes (s : String) : List Nat :=
  (s.toList.map (fun c => utf8EncodeChar c.toNat)).flatten

/-- The JWT payload of `createKmsSignedJwt` (kms-auth.js lines 45-50):
`now` is `Math.floor(Date.now() / 1000)`; fields are
`iat = now - 60`, `exp = now + 600`, `iss = appId`. -/
structure JwtPayload where
  iat : Int
  exp : Int
  iss : String
deriving Repr, DecidableEq

/-- Seconds since epoch from a millisecond clock reading:
`Math.floor(Date.now() / 1000)`. -/
def jwtNow (ms : Nat) : Nat :=
  ms / 1000

/-- Payload construction of kms-auth.js lines 46-50. -/
def jwtPayload (appId : String) (now : Nat) : JwtPayload :=
  { iat := (now : Int) - 60
    exp := (now : Int) + 600
    iss := appId }

/-- Claim C5: for every constructed assertion, with `now` the whole-second
clock at construction, the payload has `iat = now - 60`, `exp = now + 600`
and `iss = appId`; hence `exp - iat = 660` and `iat ≤ now`, for every
`appId` and every clock value. -/
theorem claim_C5_payload_times (appId : String) (ms : Nat) :
    (jwtPayload appId (jwtNow ms)).iat = (jwtNow ms : Int) - 60 ∧
    (jwtPayload appId (jwtNow ms)).exp = (jwtNow ms : Int) + 600 ∧
    (jwtPayload appId (jwtNow ms)).iss = appId ∧
    (jwtPayload appId (jwtNow ms)).exp - (jwtPayload appId (jwtNow ms)).iat = 660 ∧
    (jwtPayload appId (jwtNow ms)).iat ≤ (jwtNow ms : Int) := by
  refine ⟨rfl, rfl, rfl, by simp [jwtPayload], ?_⟩
  simp [jwtPayload]

/-- Outcome of one KMS `SignCommand` round trip (kms-auth.js lines 23-35):
`response.Signature` absent raises `KMS signing failed: no signature
returned`; otherwise the raw signature bytes are converted with the shared
base64url transform. -/
def kmsSignResult (signatureBytes : Option (List Nat)) : Except String String :=
  match signatureBytes with
  | none => Except.error "KMS signing failed: no signature returned"
  | some bs => Except.ok (toBase64Url bs)

/-- The two debug-related environment variables read at kms-auth.js line 79
(`none` = variable not set). -/
structure DebugEnv where
  actionsStepDebug : Option String
  runnerDebug : Option String
deriving Repr, DecidableEq

/-- The guard `process.env.ACTIONS_STEP_DEBUG === "true" ||
process.env.RUNNER_DEBUG === "1"` of kms-auth.js line 79. -/
def debugEnabled (env : DebugEnv) : Bool :=
  env.actionsStepDebug == some "true" || env.runnerDebug == some "1"

/-- Character class of the regex `/\s/` restricted to the whitespace that can
occur in the JSON produced here (the serialized JSON contains none, so the
ASCII subset is exact for these inputs). -/
def isJsSpace (c : Char) : Bool :=
  c = ' ' || c = '\t' || c = '\n' || c = '\r'

/-- The `.replace(/\s/g, "")` applied to the serialized JSON
(kms-auth.js lines 58-59). -/
def stripJsWhitespace (s : String) : String :=
  String.mk (s.toList.filter (fun c => !isJsSpace c))

/-- JSON string literal for the app id (`JSON.stringify` escaping elided:
this program's app ids and header fields contain no characters needing
escapes). -/
def jsonStringLit (s : String) : String :=
  "\"" ++ s ++ "\""

/-- Value of `JSON.stringify(header)` for the fixed header
`(typ: "JWT", alg: "RS256")` of kms-auth.js lines 52-55. -/
def jsonHeaderRaw : String :=
  "\x7b\"typ\":\"JWT\",\"alg\":\"RS256\"\x7d"

/-- Value of `JSON.stringify(payload)` for the payload of kms-auth.js
lines 46-50 (insertion order `iat`, `exp`, `iss`). -/
def jsonPayloadRaw (appId : String) (now : Nat) : String :=
  "\x7b\"iat\":" ++ toString (jwtPayload appId now).iat ++
    ",\"exp\":" ++ toString (jwtPayload appId now).exp ++
    ",\"iss\":" ++ jsonStringLit appId ++ "\x7d"

/-- Everything `createKmsSignedJwt` computes, plus its console output as an
explicit trace. -/
structure JwtResult where
  headerJson : String
  payloadJson : String
  encodedHeader : String
  encodedPayload : String
  signatureInput : String
  signature : String
  jwt : String
  consoleOutput : List String
deriving Repr, DecidableEq

/-- Embedding of `createKmsSignedJwt` (kms-auth.js lines 44-90).  `ms` is the
`Date.now()` reading; `sign` is the (awaited, successful) signing function;
`env` carries the two debug variables.  The seven `console.log` lines of the
debug branch become the `consoleOutput` trace. -/
def createKmsSignedJwt (appId : String) (ms : Nat) (sign : String → String)
    (env : DebugEnv) : JwtResult :=
  let now := jwtNow ms
  let headerJson := stripJsWhitespace jsonHeaderRaw
  let payloadJson := stripJsWhitespace (jsonPayloadRaw appId now)
  let encodedHeader := toBase64Url (utf8Bytes headerJson)
  let encodedPayload := toBase64Url (utf8Bytes payloadJson)
  let signatureInput := encodedHeader ++ "." ++ encodedPayload
  let signature := sign signatureInput
  let jwt := signatureInput ++ "." ++ signature
  { headerJson := headerJson
    payloadJson := payloadJson
    encodedHeader := encodedHeader
    encodedPayload := encodedPayload
    signatureInput := signatureInput
    signature := signature
    jwt := jwt
    consoleOutput :=
      if debugEnabled env then
        ["::debug::JWT Header JSON: " ++ headerJson,
         "::debug::JWT Payload JSON: " ++ payloadJson,
         "::debug::JWT Header (base64url): " ++ encodedHeader,
         "::debug::JWT Payload (base64url): " ++ encodedPayload,
         "::debug::JWT Signature Input: " ++ signatureInput,
         "::debug::JWT Signature (base64url): " ++ signature,
         "::debug::Complete JWT: " ++ jwt]
      else [] }

/-- Membership in the base64url output only comes from the three-step
character transform, so none of `+`, `/`, `=` can survive it. -/
theorem toBase64Url_char_mem {bytes : List Nat} {c : Char}
    (hc : c ∈ (toBase64Url bytes).toList) : c ≠ '+' ∧ c ≠ '/' ∧ c ≠ '=' := by
  simp only [toBase64Url, String.toList] at hc
  obtain ⟨hmem, hne⟩ := List.mem_filter.mp hc
  refine ⟨?_, ?_, by simpa using hne⟩
  · rw [List.mem_map] at hmem
    obtain ⟨a, ha, rfl⟩ := hmem
    rw [List.mem_map] at ha
    obtain ⟨b, _, rfl⟩ := ha
    simp only [swapSlashToUnderscore, swapPlusToMinus]
    split <;> simp_all
    split <;> simp_all
  · rw [List.mem_map] at hmem
    obtain ⟨a, _, rfl⟩ := hmem
    simp only [swapSlashToUnderscore]
    split <;> simp_all

/-- Claim C6: the base64url conversion applied to the signature bytes and to
the encoded header/payload segments is, for byte strings of every length,
free of `+`, `/` and `=` (hence padding-free), and is the same transform
(`toBase64Url`) at every site: the KMS signature conversion and both segment
encodings of the assertion builder. -/
theorem claim_C6_base64url_transform :
    (∀ bytes : List Nat, ∀ c ∈ (toBase64Url bytes).toList,
      c ≠ '+' ∧ c ≠ '/' ∧ c ≠ '=') ∧
    (∀ sig : List Nat, kmsSignResult (some sig) = Except.ok (toBase64Url sig)) ∧
    (∀ appId : String, ∀ ms : Nat, ∀ sign : String → String, ∀ env : DebugEnv,
      (createKmsSignedJwt appId ms sign env).encodedHeader
        = toBase64Url (utf8Bytes (createKmsSignedJwt appId ms sign env).headerJson) ∧
      (createKmsSignedJwt appId ms sign env).encodedPayload
        = toBase64Url (utf8Bytes (createKmsSignedJwt appId ms sign env).payloadJson)) := by
  refine ⟨fun bytes c hc => toBase64Url_char_mem hc, fun sig => rfl,
    fun appId ms sign env => ⟨rfl, rfl⟩⟩

/-- Witness for C6 at a concrete input: `toBase64Url [0, 1, 2] = "AAEC"`, its
first character is a member and indeed none of the three banned characters. -/
theorem claim_C6_base64url_transform_witness :
    'A' ∈ (toBase64Url [0, 1, 2]).toList ∧
      ('A' ≠ '+' ∧ 'A' ≠ '/' ∧ 'A' ≠ '=') :=
  ⟨by decide, claim_C6_base64url_transform.1 [0, 1, 2] 'A' (by decide)⟩

/-- Events observable from the KMS signer factory and the signing closure it
returns. -/
inductive KmsEvent where
  | constructClient (clientId : Nat)
  | signRequest (clientId : Nat)
deriving Repr, DecidableEq

/-- The signing closure returned by `createKmsSigner`: it captures the one
`KMSClient` constructed by the factory. -/
structure KmsSignerClosure where
  clientId : Nat
deriving Repr, DecidableEq

/-- Embedding of the factory body of `createKmsSigner` (kms-auth.js lines
11-13): `new KMSClient(clientConfig)` executes when the factory itself is
called — which happens once, from `createKmsAppAuth` at line 102 — before the
signing closure is returned.  The construction event is part of the factory's
trace, not of any signing call. -/
def createKmsSigner (clientId : Nat) : KmsSignerClosure × List KmsEvent :=
  (⟨clientId⟩, [KmsEvent.constructClient clientId])

/-- One call of the returned closure (kms-auth.js lines 15-35): it sends a
`SignCommand` through the captured client and constructs no client. -/
def kmsSignerCall (c : KmsSignerClosure) : List KmsEvent :=
  [KmsEvent.signRequest c.clientId]

/-- Event trace of one `createKmsAppAuth` identity (kms-auth.js line 102
runs the factory) that then performs `numSignCalls` signing calls through
the returned closure. -/
def kmsAuthSignerTrace (clientId : Nat) (numSignCalls : Nat) : List KmsEvent :=
  (createKmsSigner clientId).2 ++
    (List.replicate numSignCalls (kmsSignerCall (createKmsSigner clientId).1)).flatten

/-- Recognizer for client-construction events. -/
def isConstructEvent : KmsEvent → Bool
  | KmsEvent.constructClient _ => true
  | KmsEvent.signRequest _ => false

/-- The repeated signing calls of one closure are all routed to the captured
client and construct nothing. -/
theorem replicate_kmsSignerCall_flatten (c : KmsSignerClosure) (n : Nat) :
    (List.replicate n (kmsSignerCall c)).flatten
      = List.replicate n (KmsEvent.signRequest c.clientId) := by
  induction n with
  | zero => rfl
  | succ k ih => simp [List.replicate_succ, ih, kmsSignerCall]

/-- Claim C9 counterexample: in an execution with zero signing calls the
identity still constructs one KMS client (the claim asserts none would be
constructed, i.e. construction deferred to the first signing call). -/
theorem claim_C9_client_lifecycle_counterexample :
    ¬ (kmsAuthSignerTrace 0 0).countP isConstructEvent = 0 := by
  decide

/-- Claim C9 (amended): the KMS client is constructed exactly once per
identity, eagerly when the identity is created (it is the first event of the
trace, before any signing request), and every signing request of the
invocation is routed through that same client instance — the client is never
re-created per assertion, regardless of how many signing calls occur
(including zero). -/
theorem claim_C9_client_lifecycle (clientId : Nat) (numSignCalls : Nat) :
    (kmsAuthSignerTrace clientId numSignCalls).countP isConstructEvent = 1 ∧
    (kmsAuthSignerTrace clientId numSignCalls).head?
      = some (KmsEvent.constructClient clientId) ∧
    (∀ i : Nat, KmsEvent.signRequest i ∈ kmsAuthSignerTrace clientId numSignCalls →
      i = clientId) := by
  refine ⟨?_, ?_, ?_⟩
  · simp [kmsAuthSignerTrace, createKmsSigner, replicate_kmsSignerCall_flatten,
      List.countP_append, isConstructEvent]
  · simp [kmsAuthSignerTrace, createKmsSigner]
  · intro i hi
    simp only [kmsAuthSignerTrace, createKmsSigner,
      replicate_kmsSignerCall_flatten, List.mem_append] at hi
    rcases hi with hi | hi
    · simp at hi
    · have := List.eq_of_mem_replicate hi
      injection this

/-- Witness for C9 (amended) at client id 5 with 2 signing calls. -/
theorem claim_C9_client_lifecycle_witness :
    (kmsAuthSignerTrace 5 2).countP isConstructEvent = 1 ∧
      (KmsEvent.signRequest 5 ∈ kmsAuthSignerTrace 5 2 → (5 : Nat) = 5) :=
  ⟨(claim_C9_client_lifecycle 5 2).1,
    fun h => (claim_C9_client_lifecycle 5 2).2.2 5 h⟩

/-- Claim C10: when `ACTIONS_STEP_DEBUG` equals `"true"` or `RUNNER_DEBUG`
equals `"1"`, the assertion builder writes the complete signed assertion
(header and payload JSON, their base64url encodings, the signature input, the
signature, the full compact JWT) to the console log; when neither variable is
set, it produces no console output. -/
theorem claim_C10_debug_logging (appId : String) (ms : Nat)
    (sign : String → String) (env : DebugEnv) :
    (env.actionsStepDebug = some "true" ∨ env.runnerDebug = some "1" →
      (createKmsSignedJwt appId ms sign env).consoleOutput =
        ["::debug::JWT Header JSON: " ++ (createKmsSignedJwt appId ms sign env).headerJson,
         "::debug::JWT Payload JSON: " ++ (createKmsSignedJwt appId ms sign env).payloadJson,
         "::debug::JWT Header (base64url): " ++ (createKmsSignedJwt appId ms sign env).encodedHeader,
         "::debug::JWT Payload (base64url): " ++ (createKmsSignedJwt appId ms sign env).encodedPayload,
         "::debug::JWT Signature Input: " ++ (createKmsSignedJwt appId ms sign env).signatureInput,
         "::debug::JWT Signature (base64url): " ++ (createKmsSignedJwt appId ms sign env).signature,
         "::debug::Complete JWT: " ++ (createKmsSignedJwt appId ms sign env).jwt]) ∧
    (env.actionsStepDebug = none ∧ env.runnerDebug = none →
      (createKmsSignedJwt appId ms sign env).consoleOutput = []) := by
  constructor
  · intro h
    have hd : debugEnabled env = true := by
      rcases h with h | h <;> simp [debugEnabled, h]
    simp only [createKmsSignedJwt, hd, if_true]
  · rintro ⟨h1, h2⟩
    have hd : debugEnabled env = false := by
      simp [debugEnabled, h1, h2]
    simp [createKmsSignedJwt, hd]

/-- Witness for C10: with `ACTIONS_STEP_DEBUG = "true"` the builder logs the
seven debug lines (evaluated at app id "1", clock 0, a constant signer). -/
theorem claim_C10_debug_logging_witness :
    ((some "true" : Option String) = some "true" ∨
        (none : Option String) = some "1") ∧
      (createKmsSignedJwt "1" 0 (fun _ => "sig")
          ⟨some "true", none⟩).consoleOutput =
        ["::debug::JWT Header JSON: " ++ (createKmsSignedJwt "1" 0 (fun _ => "sig") ⟨some "true", none⟩).headerJson,
         "::debug::JWT Payload JSON: " ++ (createKmsSignedJwt "1" 0 (fun _ => "sig") ⟨some "true", none⟩).payloadJson,
         "::debug::JWT Header (base64url): " ++ (createKmsSignedJwt "1" 0 (fun _ => "sig") ⟨some "true", none⟩).encodedHeader,
         "::debug::JWT Payload (base64url): " ++ (createKmsSignedJwt "1" 0 (fun _ => "sig") ⟨some "true", none⟩).encodedPayload,
         "::debug::JWT Signature Input: " ++ (createKmsSignedJwt "1" 0 (fun _ => "sig") ⟨some "true", none⟩).signatureInput,
         "::debug::JWT Signature (base64url): " ++ (createKmsSignedJwt "1" 0 (fun _ => "sig") ⟨some "true", none⟩).signature,
         "::debug::Complete JWT: " ++ (createKmsSignedJwt "1" 0 (fun _ => "sig") ⟨some "true", none⟩).jwt] :=
  ⟨Or.inl rfl,
    (claim_C10_debug_logging "1" 0 (fun _ => "sig") ⟨some "true", none⟩).1
      (Or.inl rfl)⟩

/-- The request body sent to
`POST /app/installations/{installation_id}/access_tokens` (kms-auth.js lines
140-146): a field is `none` when the corresponding key is absent from the
body object. -/
structure TokenRequestBody where
  repositories : Option (List String)
  permissions : Option (List (String × String))
deriving Repr, DecidableEq

/-- Body construction of kms-auth.js lines 140-146:
`if (repositoryNames && repositoryNames.length > 0) body.repositories = ...;`
then `if (permissions) body.permissions = permissions;`.  Note the asymmetry:
the repositories guard checks non-emptiness, the permissions guard checks
only JavaScript truthiness (an empty object is truthy). -/
def buildAccessTokenBody (repositoryNames : Option (List String))
    (permissions : Option (List (String × String))) : TokenRequestBody :=
  let b : TokenRequestBody := ⟨none, none⟩
  let b :=
    if (match repositoryNames with
        | some l => !l.isEmpty
        | none => false) then
      { b with repositories := repositoryNames }
    else b
  let b :=
    if permissions.isSome then { b with permissions := permissions } else b
  b

/-- Network calls observable from the installation-auth operation. -/
inductive NetCall where
  | kmsSign
  | postAccessTokens (installation_id : Nat) (body : TokenRequestBody)
deriving Repr, DecidableEq

/-- Embedding of the `type === "installation"` branch of the auth function
(kms-auth.js lines 125-155).  JavaScript falsiness of `installationId`
(`undefined` or `0`) raises before anything else runs; otherwise a JWT is
built (one KMS signing round trip) and the access-token-creation endpoint is
called with the built body and the JWT as bearer.  The second component is
the trace of network calls: empty on the error path, so the failure precedes
any network activity. -/
def kmsAuthInstallation (appId : String) (ms : Nat) (sign : String → String)
    (env : DebugEnv) (installationId : Option Nat)
    (repositoryNames : Option (List String))
    (permissions : Option (List (String × String))) :
    Except String (String × TokenRequestBody) × List NetCall :=
  match installationId with
  | none =>
      (Except.error "installationId is required for installation authentication", [])
  | some n =>
      if n = 0 then
        (Except.error "installationId is required for installation authentication", [])
      else
        let jwt := (createKmsSignedJwt appId ms sign env).jwt
        let body := buildAccessTokenBody repositoryNames permissions
        (Except.ok (jwt, body), [NetCall.kmsSign, NetCall.postAccessTokens n body])

/-- Entrypoint key-input validation (the two throws after input parsing):
`if (!privateKey && !awsKmsArn) throw ...; if (privateKey && awsKmsArn)
throw ...`.  Runs before any auth function is created, hence before any
network call. -/
def validateKeyInputs (privateKey : String) (awsKmsArn : String) :
    Except String Unit :=
  if !jsTruthyString privateKey && !jsTruthyString awsKmsArn then
    Except.error "Either 'private-key' or 'aws-kms-arn' must be provided"
  else if jsTruthyString privateKey && jsTruthyString awsKmsArn then
    Except.error "Only one of 'private-key' or 'aws-kms-arn' should be provided"
  else
    Except.ok ()

/-- A caught JavaScript error as seen by the retry coordinator: a message and
an optional carried HTTP status. -/
structure JsError where
  message : String
  status : Option Nat
deriving Repr, DecidableEq

/-- The predicate of main.js line 104, `(error) => error.status >= 500`;
when `status` is `undefined` the JavaScript comparison is false. -/
def repoShouldRetry (e : JsError) : Bool :=
  match e.status with
  | some s => 500 ≤ s
  | none => false

/-- The owner-only retry call (main.js lines 117-127) passes no custom
predicate; p-retry's default treats every caught failure as retryable. -/
def ownerShouldRetry (_e : JsError) : Bool :=
  true

/-- Claim C3 counterexample: supplying an empty permission mapping (an empty
object, which is truthy in JavaScript) makes the body carry the
`permissions` key even though the mapping is not non-empty, refuting the
stated "if and only if a non-empty permission mapping was supplied". -/
theorem claim_C3_body_keys_counterexample :
    ¬ (((buildAccessTokenBody none (some [])).permissions ≠ none) ↔
        ∃ m : List (String × String),
          (some ([] : List (String × String))) = some m ∧ m ≠ []) := by
  intro h
  have hp : (buildAccessTokenBody none (some [])).permissions ≠ none := by
    decide
  obtain ⟨m, hm, hne⟩ := h.mp hp
  exact hne (Option.some.injEq _ _ ▸ hm).symm

/-- Claim C3 (amended): the body contains `repositories` exactly when a
non-empty repository-name list was supplied (and then it is that list), and
contains `permissions` exactly when a permission mapping was supplied at all
— empty or not, since the source guard is JavaScript truthiness (and then it
is that mapping); when the list is absent or empty and no mapping is
supplied, neither key appears.  The body sent by the installation-auth
operation is precisely this built body. -/
theorem claim_C3_body_keys (repositoryNames : Option (List String))
    (permissions : Option (List (String × String))) :
    ((buildAccessTokenBody repositoryNames permissions).repositories ≠ none ↔
      ∃ l, repositoryNames = some l ∧ l ≠ []) ∧
    ((buildAccessTokenBody repositoryNames permissions).repositories ≠ none →
      (buildAccessTokenBody repositoryNames permissions).repositories
        = repositoryNames) ∧
    ((buildAccessTokenBody repositoryNames permissions).permissions
      = permissions) ∧
    ((repositoryNames = none ∨ repositoryNames = some []) ∧ permissions = none →
      buildAccessTokenBody repositoryNames permissions = ⟨none, none⟩) ∧
    (∀ (appId : String) (ms : Nat) (sign : String → String) (env : DebugEnv)
        (n : Nat), n ≠ 0 →
      (kmsAuthInstallation appId ms sign env (some n) repositoryNames
          permissions).2
        = [NetCall.kmsSign,
           NetCall.postAccessTokens n
             (buildAccessTokenBody repositoryNames permissions)]) := by
  refine ⟨?_, ?_, ?_, ?_, ?_⟩
  · rcases repositoryNames with _ | l
    · rcases permissions with _ | p <;> simp [buildAccessTokenBody]
    · rcases l with _ | ⟨a, l⟩ <;>
        rcases permissions with _ | p <;>
        simp [buildAccessTokenBody]
  · rcases repositoryNames with _ | l
    · rcases permissions with _ | p <;> simp [buildAccessTokenBody]
    · rcases l with _ | ⟨a, l⟩ <;>
        rcases permissions with _ | p <;>
        simp [buildAccessTokenBody]
  · rcases repositoryNames with _ | l
    · rcases permissions with _ | p <;> simp [buildAccessTokenBody]
    · rcases l with _ | ⟨a, l⟩ <;>
        rcases permissions with _ | p <;>
        simp [buildAccessTokenBody]
  · rintro ⟨hr, hp⟩
    subst hp
    rcases hr with rfl | rfl <;> simp [buildAccessTokenBody]
  · intro appId ms sign env n hn
    simp [kmsAuthInstallation, hn]

/-- Witness for C3 (amended) at the spec's own example: repository names
`["a", "b"]` and no permissions give a body with `repositories = ["a", "b"]`
and no `permissions` key. -/
theorem claim_C3_body_keys_witness :
    ((buildAccessTokenBody (some ["a", "b"]) none).repositories ≠ none) ∧
      (buildAccessTokenBody (some ["a", "b"]) none).repositories
        = some ["a", "b"] ∧
      (buildAccessTokenBody (some ["a", "b"]) none).permissions = none :=
  ⟨(claim_C3_body_keys (some ["a", "b"]) none).1.mpr
      ⟨["a", "b"], rfl, by decide⟩,
    (claim_C3_body_keys (some ["a", "b"]) none).2.1
      ((claim_C3_body_keys (some ["a", "b"]) none).1.mpr
        ⟨["a", "b"], rfl, by decide⟩),
    (claim_C3_body_keys (some ["a", "b"]) none).2.2.1⟩

/-- Claim C8: configuration failures are fatal and precede any network call —
the entrypoint raises when neither or both of the private key and the KMS key
reference are supplied; the installation-auth operation raises whenever
`installationId` is absent or zero, with an empty network-call trace; and the
resolve-path retry predicate classifies this failure (which carries no HTTP
status) as non-retryable. -/
theorem claim_C8_configuration_failures (privateKey awsKmsArn : String)
    (appId : String) (ms : Nat) (sign : String → String) (env : DebugEnv)
    (installationId : Option Nat) (repositoryNames : Option (List String))
    (permissions : Option (List (String × String))) :
    (validateKeyInputs privateKey awsKmsArn ≠ Except.ok () ↔
      ((privateKey = "" ∧ awsKmsArn = "") ∨ (privateKey ≠ "" ∧ awsKmsArn ≠ ""))) ∧
    (installationId = none ∨ installationId = some 0 →
      kmsAuthInstallation appId ms sign env installationId repositoryNames
          permissions
        = (Except.error
            "installationId is required for installation authentication", [])) ∧
    repoShouldRetry
        ⟨"installationId is required for installation authentication", none⟩
      = false := by
  refine ⟨?_, ?_, rfl⟩
  · constructor
    · intro h
      by_cases hp : privateKey = "" <;> by_cases ha : awsKmsArn = ""
      · exact Or.inl ⟨hp, ha⟩
      · exfalso
        apply h
        simp [validateKeyInputs, jsTruthyString, hp, ha,
          String.isEmpty_iff]
      · exfalso
        apply h
        simp [validateKeyInputs, jsTruthyString, hp, ha,
          String.isEmpty_iff]
      · exact Or.inr ⟨hp, ha⟩
    · intro h
      rcases h with ⟨hp, ha⟩ | ⟨hp, ha⟩ <;>
        simp [validateKeyInputs, jsTruthyString, hp, ha, String.isEmpty_iff]
  · rintro (rfl | rfl) <;> simp [kmsAuthInstallation]

/-- Witness for C8: with no private key and no KMS reference the entrypoint
validation fails, and an absent installation id fails with no network call. -/
theorem claim_C8_configuration_failures_witness :
    (validateKeyInputs "" "" ≠ Except.ok ()) ∧
      kmsAuthInstallation "1" 0 (fun _ => "sig") ⟨none, none⟩ none none none
        = (Except.error
            "installationId is required for installation authentication", []) :=
  ⟨(claim_C8_configuration_failures "" "" "1" 0 (fun _ => "sig") ⟨none, none⟩
        none none none).1.mpr (Or.inl ⟨rfl, rfl⟩),
    (claim_C8_configuration_failures "" "" "1" 0 (fun _ => "sig") ⟨none, none⟩
        none none none).2.1 (Or.inl rfl)⟩

/-- Embedding of the p-retry loop as configured in main.js: `attempt k` is
the outcome of the k-th attempt (1-based), `retriesLeft` the remaining retry
budget.  On a failure the retry predicate is consulted: a negative answer
surfaces the failure at once; otherwise the failure is retried while budget
remains, and exhaustion re-raises the last failure.  The second component of
the result is the total number of attempts performed. -/
def pRetryGo {α : Type} (shouldRetry : JsError → Bool)
    (attempt : Nat → Except JsError α) (attemptNo : Nat) :
    Nat → Except JsError α × Nat
  | 0 =>
      match attempt attemptNo with
      | Except.ok a => (Except.ok a, attemptNo)
      | Except.error e => (Except.error e, attemptNo)
  | retriesLeft + 1 =>
      match attempt attemptNo with
      | Except.ok a => (Except.ok a, attemptNo)
      | Except.error e =>
          if shouldRetry e then
            pRetryGo shouldRetry attempt (attemptNo + 1) retriesLeft
          else (Except.error e, attemptNo)

/-- `pRetry(fn, {shouldRetry, retries})`: run from attempt 1 with `retries`
retries left. -/
def pRetry {α : Type} (shouldRetry : JsError → Bool) (retries : Nat)
    (attempt : Nat → Except JsError α) : Except JsError α × Nat :=
  pRetryGo shouldRetry attempt 1 retries

/-- The repository-resolution retry call of main.js lines 94-114:
`retries: 3` with the 5xx-only predicate. -/
def mainRepoRetry {α : Type} (attempt : Nat → Except JsError α) :
    Except JsError α × Nat :=
  pRetry repoShouldRetry 3 attempt

/-- The owner-only retry call of main.js lines 117-127: `retries: 3` with no
custom predicate (p-retry default: every caught failure is retryable). -/
def mainOwnerRetry {α : Type} (attempt : Nat → Except JsError α) :
    Except JsError α × Nat :=
  pRetry ownerShouldRetry 3 attempt

/-- The retry loop never performs more than `attemptNo + retriesLeft`
attempts. -/
theorem pRetryGo_attempts_le {α : Type} (shouldRetry : JsError → Bool)
    (attempt : Nat → Except JsError α) :
    ∀ (retriesLeft attemptNo : Nat),
      (pRetryGo shouldRetry attempt attemptNo retriesLeft).2
        ≤ attemptNo + retriesLeft := by
  intro retriesLeft
  induction retriesLeft with
  | zero =>
      intro n
      simp only [pRetryGo]
      cases attempt n <;> simp
  | succ k ih =>
      intro n
      simp only [pRetryGo]
      cases attempt n with
      | ok a => simp
      | error e =>
          by_cases hp : shouldRetry e = true
          · simp only [hp, if_true]
            calc (pRetryGo shouldRetry attempt (n + 1) k).2
                ≤ n + 1 + k := ih (n + 1)
              _ ≤ n + (k + 1) := by omega
          · simp [hp]

/-- Claim C2: both retry paths perform at most 3 retries (4 total attempts);
on the repository-resolution path a failure whose carried status is not
`≥ 500` (absent or `< 500`) surfaces immediately after exactly one attempt,
while `≥ 500` failures are retried until the bound, the last failure being
re-raised; on the owner-only path every caught failure is retried up to the
same bound, the last failure being re-raised on exhaustion. -/
theorem claim_C2_retry_coordinator :
    (∀ (α : Type) (shouldRetry : JsError → Bool)
        (attempt : Nat → Except JsError α),
      (pRetry shouldRetry 3 attempt).2 ≤ 4) ∧
    (∀ (α : Type) (attempt : Nat → Except JsError α) (e : JsError),
      attempt 1 = Except.error e →
      (e.status = none ∨ ∃ s, e.status = some s ∧ s < 500) →
      mainRepoRetry attempt = (Except.error e, 1)) ∧
    (∀ (α : Type) (attempt : Nat → Except JsError α) (e1 e2 e3 e4 : JsError),
      attempt 1 = Except.error e1 → attempt 2 = Except.error e2 →
      attempt 3 = Except.error e3 → attempt 4 = Except.error e4 →
      (∃ s, e1.status = some s ∧ 500 ≤ s) →
      (∃ s, e2.status = some s ∧ 500 ≤ s) →
      (∃ s, e3.status = some s ∧ 500 ≤ s) →
      mainRepoRetry attempt = (Except.error e4, 4)) ∧
    (∀ (α : Type) (attempt : Nat → Except JsError α) (e1 e2 e3 e4 : JsError),
      attempt 1 = Except.error e1 → attempt 2 = Except.error e2 →
      attempt 3 = Except.error e3 → attempt 4 = Except.error e4 →
      mainOwnerRetry attempt = (Except.error e4, 4)) := by
  refine ⟨?_, ?_, ?_, ?_⟩
  · intro α shouldRetry attempt
    have := pRetryGo_attempts_le shouldRetry attempt 3 1
    simpa [pRetry] using this
  · intro α attempt e h1 hs
    have hsr : repoShouldRetry e = false := by
      rcases hs with h | ⟨s, hseq, hlt⟩
      · simp [repoShouldRetry, h]
      · simp only [repoShouldRetry, hseq]
        simpa using by omega
    simp [mainRepoRetry, pRetry, pRetryGo, h1, hsr]
  · intro α attempt e1 e2 e3 e4 h1 h2 h3 h4 hs1 hs2 hs3
    obtain ⟨s1, hq1, hg1⟩ := hs1
    obtain ⟨s2, hq2, hg2⟩ := hs2
    obtain ⟨s3, hq3, hg3⟩ := hs3
    have hr1 : repoShouldRetry e1 = true := by
      simp only [repoShouldRetry, hq1]; simpa using hg1
    have hr2 : repoShouldRetry e2 = true := by
      simp only [repoShouldRetry, hq2]; simpa using hg2
    have hr3 : repoShouldRetry e3 = true := by
      simp only [repoShouldRetry, hq3]; simpa using hg3
    simp [mainRepoRetry, pRetry, pRetryGo, h1, h2, h3, h4, hr1, hr2, hr3]
  · intro α attempt e1 e2 e3 e4 h1 h2 h3 h4
    simp [mainOwnerRetry, pRetry, pRetryGo, ownerShouldRetry, h1, h2, h3, h4]

/-- Witness for C2: a concrete stub failing with status 404 on the first
attempt surfaces immediately after one attempt on the repository path, and a
stub failing with status 503 on every attempt exhausts all four attempts and
re-raises the last failure on both paths. -/
theorem claim_C2_retry_coordinator_witness :
    mainRepoRetry (fun k =>
        if k = 1 then Except.error ⟨"not found", some 404⟩
        else Except.ok (0 : Nat))
      = (Except.error ⟨"not found", some 404⟩, 1) ∧
    mainRepoRetry (fun k => (Except.error ⟨"unavailable", some (500 + k)⟩ :
        Except JsError Nat))
      = (Except.error ⟨"unavailable", some 504⟩, 4) ∧
    mainOwnerRetry (fun _ => (Except.error ⟨"boom", none⟩ :
        Except JsError Nat))
      = (Except.error ⟨"boom", none⟩, 4) :=
  ⟨claim_C2_retry_coordinator.2.1 Nat _ ⟨"not found", some 404⟩ rfl
      (Or.inr ⟨404, rfl, by decide⟩),
    claim_C2_retry_coordinator.2.2.1 Nat _ ⟨"unavailable", some 501⟩
      ⟨"unavailable", some 502⟩ ⟨"unavailable", some 503⟩
      ⟨"unavailable", some 504⟩ rfl rfl rfl rfl
      ⟨501, rfl, by decide⟩ ⟨502, rfl, by decide⟩ ⟨503, rfl, by decide⟩,
    claim_C2_retry_coordinator.2.2.2 Nat _ ⟨"boom", none⟩ ⟨"boom", none⟩
      ⟨"boom", none⟩ ⟨"boom", none⟩ rfl rfl rfl rfl⟩

/-- The two repository-coordinate environment variables read by main.js
(`GITHUB_REPOSITORY` is `"owner/repo"`; `GITHUB_REPOSITORY_OWNER` the
account). -/
structure RepoEnv where
  githubRepository : String
  githubRepositoryOwner : String
deriving Repr, DecidableEq

/-- `String.prototype.split("/")` on a character list: accumulate the current
segment, cut at each slash. -/
def splitSlashAux : List Char → List Char → List String
  | [], acc => [String.mk acc.reverse]
  | c :: rest, acc =>
      if c = '/' then String.mk acc.reverse :: splitSlashAux rest []
      else splitSlashAux rest (c :: acc)

/-- The destructuring `const [owner, repo] =
String(process.env.GITHUB_REPOSITORY).split("/")` of main.js line 33. -/
def splitOwnerRepo (s : String) : String × String :=
  ((splitSlashAux s.toList []).getD 0 "", (splitSlashAux s.toList []).getD 1 "")

/-- The parsed scope accumulated by main.js lines 28-72. -/
structure ParsedScope where
  owner : String
  repositoryNames : List String
deriving Repr, DecidableEq

/-- Embedding of the four sequential `if` statements of main.js lines 28-72,
starting from `parsedOwner = ""`, `parsedRepositoryNames = []` and updating
exactly the variables each branch assigns. -/
def parseScope (owner : String) (repositories : List String) (env : RepoEnv) :
    ParsedScope :=
  let p : ParsedScope := ⟨"", []⟩
  let p :=
    if !jsTruthyString owner && repositories.isEmpty then
      ⟨(splitOwnerRepo env.githubRepository).1,
        [(splitOwnerRepo env.githubRepository).2]⟩
    else p
  let p :=
    if jsTruthyString owner && repositories.isEmpty then
      ⟨owner, p.repositoryNames⟩
    else p
  let p :=
    if !jsTruthyString owner && !repositories.isEmpty then
      ⟨env.githubRepositoryOwner, repositories⟩
    else p
  let p :=
    if jsTruthyString owner && !repositories.isEmpty then
      ⟨owner, repositories⟩
    else p
  p

/-- Modelled from the spec, section 4.6 cases 2-5 (the scope-classification
precedence table), for comparison with `parseScope`: case 2 defaults both
coordinates to the hosting repository; case 3 targets the owner with all
repositories; case 4 defaults the owner to the invocation's account; case 5
uses both inputs. -/
def specScopeTable (owner : String) (repositories : List String)
    (env : RepoEnv) : ParsedScope :=
  if owner = "" ∧ repositories = [] then
    ⟨(splitOwnerRepo env.githubRepository).1,
      [(splitOwnerRepo env.githubRepository).2]⟩
  else if owner ≠ "" ∧ repositories = [] then
    ⟨owner, []⟩
  else if owner = "" then
    ⟨env.githubRepositoryOwner, repositories⟩
  else
    ⟨owner, repositories⟩

/-- Decimal digit accumulator for `jsNumber`. -/
def parseDigits : List Char → Option Nat → Option Nat
  | [], acc => acc
  | c :: rest, acc =>
      if '0' ≤ c ∧ c ≤ '9' then
        parseDigits rest (some ((acc.getD 0) * 10 + (c.toNat - 48)))
      else none

/-- `Number(s)` on the decimal installation-id strings this program accepts
(main.js line 79); non-numeric coercion corner cases (`NaN`) are outside the
inputs the claims range over. -/
def jsNumber (s : String) : Nat :=
  (parseDigits s.toList none).getD 0

/-- The three mutually exclusive continuations chosen by main.js lines
74-128. -/
inductive Dispatch where
  | direct (installationId : Nat) (repositoryNames : Option (List String))
      (appSlug : String)
  | byRepository (owner : String) (repositoryNames : List String)
  | byOwner (owner : String)
deriving Repr, DecidableEq

/-- Embedding of the dispatch of main.js lines 74-128: a provided
installation id wins (exchange called directly, `repositoryNames` passed
when the parsed list is non-empty, `appSlug` set to the `"github-app"`
placeholder); otherwise a non-empty parsed repository list goes to the
repository-resolution path, else to the owner path. -/
def mainDispatch (owner : String) (repositories : List String) (env : RepoEnv)
    (providedInstallationId : String) : Dispatch :=
  let p := parseScope owner repositories env
  if jsTruthyString providedInstallationId then
    Dispatch.direct (jsNumber providedInstallationId)
      (if !p.repositoryNames.isEmpty then some p.repositoryNames else none)
      "github-app"
  else if !p.repositoryNames.isEmpty then
    Dispatch.byRepository p.owner p.repositoryNames
  else
    Dispatch.byOwner p.owner

/-- The installation-resolution lookups each continuation performs before its
exchange: the direct path performs none (main.js lines 77-91), the
repository path probes `GET /repos/(owner)/(repo)/installation` once, the
owner path probes `GET /users/(username)/installation` once. -/
def dispatchLookups : Dispatch → List (String × String)
  | Dispatch.direct _ _ _ => []
  | Dispatch.byRepository owner repositoryNames =>
      [(owner, repositoryNames.getD 0 "")]
  | Dispatch.byOwner owner => [(owner, "")]

/-- Claim C1: for every combination of owner, repositories and installation
id, the parsed scope equals the spec's section 4.6 precedence table (cases
2-5), and whenever an explicit installation id is provided the dispatch
bypasses resolution entirely: no lookup call is made, the exchange is
invoked directly with `Number(providedInstallationId)` and the parsed
repository names as scoping, and the synthetic `"github-app"` placeholder is
emitted as the app slug. -/
theorem claim_C1_scope_resolution (owner : String) (repositories : List String)
    (env : RepoEnv) (providedInstallationId : String) :
    parseScope owner repositories env = specScopeTable owner repositories env ∧
    (providedInstallationId ≠ "" →
      mainDispatch owner repositories env providedInstallationId
        = Dispatch.direct (jsNumber providedInstallationId)
            (if !(parseScope owner repositories env).repositoryNames.isEmpty
              then some (parseScope owner repositories env).repositoryNames
              else none)
            "github-app" ∧
      dispatchLookups
          (mainDispatch owner repositories env providedInstallationId)
        = []) := by
  constructor
  · by_cases ho : owner = "" <;> by_cases hr : repositories = [] <;>
      simp [parseScope, specScopeTable, jsTruthyString, String.isEmpty_iff,
        ho, hr]
  · intro h
    have ht : jsTruthyString providedInstallationId = true := by
      cases hb : providedInstallationId.isEmpty with
      | false => simp [jsTruthyString, hb]
      | true => exact absurd ((String.isEmpty_iff _).mp hb) h
    constructor
    · simp [mainDispatch, ht]
    · simp [mainDispatch, ht, dispatchLookups]

/-- Witness for C1 at the spec's own end-to-end scenario: explicit
installation id `"123456"`, no owner or repositories inputs, hosting
coordinates `acme/widgets` — the exchange is invoked directly with
`123456`, scoped to the parsed (defaulted) repository list, app slug
`"github-app"`, and no lookup occurs. -/
theorem claim_C1_scope_resolution_witness :
    mainDispatch "" [] ⟨"acme/widgets", "acme"⟩ "123456"
      = Dispatch.direct 123456 (some ["widgets"]) "github-app" ∧
    dispatchLookups (mainDispatch "" [] ⟨"acme/widgets", "acme"⟩ "123456")
      = [] := by
  have h := (claim_C1_scope_resolution "" [] ⟨"acme/widgets", "acme"⟩
    "123456").2 (by decide)
  refine ⟨?_, h.2⟩
  rw [h.1]
  rfl

/-- Fields used from the installation-lookup response
(`response.data.id`, `response.data["app_slug"]`). -/
structure InstallationLookupResponse where
  id : Nat
  app_slug : String
deriving Repr, DecidableEq

/-- Options of the auth call made by the token-exchange step
(main.js lines 184-189). -/
structure AuthInstallationCall where
  installationId : Nat
  repositoryNames : Option (List String)
  permissions : Option (List (String × String))
deriving Repr, DecidableEq

/-- What one run of `getTokenFromRepository` observably does. -/
structure RepoFlowResult where
  lookups : List (String × String)
  authCall : AuthInstallationCall
  installationId : Nat
  appSlug : String
deriving Repr, DecidableEq

/-- Embedding of `getTokenFromRepository` (main.js lines 167-195): exactly
one `GET /repos/(owner)/(repo)/installation` lookup, with
`parsedRepositoryNames[0]`, then the auth exchange with the full parsed
list.  `lookupStub` stands for the external request function. -/
def getTokenFromRepository
    (lookupStub : String → String → InstallationLookupResponse)
    (parsedOwner : String) (parsedRepositoryNames : List String)
    (permissions : Option (List (String × String))) : RepoFlowResult :=
  let probe := parsedRepositoryNames.getD 0 ""
  let response := lookupStub parsedOwner probe
  { lookups := [(parsedOwner, probe)]
    authCall :=
      { installationId := response.id
        repositoryNames := some parsedRepositoryNames
        permissions := permissions }
    installationId := response.id
    appSlug := response.app_slug }

/-- Claim C7: for every non-empty resolved repository list, the
installation-by-repository resolution performs exactly one lookup, with
exactly the first repository name (the others are never probed), while the
subsequent token exchange is invoked with the full repository list. -/
theorem claim_C7_first_repository_probe
    (lookupStub : String → String → InstallationLookupResponse)
    (parsedOwner : String) (parsedRepositoryNames : List String)
    (permissions : Option (List (String × String)))
    (hne : parsedRepositoryNames ≠ []) :
    (getTokenFromRepository lookupStub parsedOwner parsedRepositoryNames
        permissions).lookups
      = [(parsedOwner, parsedRepositoryNames.head hne)] ∧
    (getTokenFromRepository lookupStub parsedOwner parsedRepositoryNames
        permissions).authCall
      = { installationId :=
            (lookupStub parsedOwner (parsedRepositoryNames.head hne)).id
          repositoryNames := some parsedRepositoryNames
          permissions := permissions } := by
  cases parsedRepositoryNames with
  | nil => exact absurd rfl hne
  | cons a rest => exact ⟨rfl, rfl⟩

/-- Witness for C7 with repositories `["a", "b"]`: only `"a"` is probed, the
exchange is scoped to both names. -/
theorem claim_C7_first_repository_probe_witness :
    (["a", "b"] : List String) ≠ [] ∧
      (getTokenFromRepository (fun _ _ => ⟨42, "slug"⟩) "acme" ["a", "b"]
          none).lookups = [("acme", "a")] ∧
      (getTokenFromRepository (fun _ _ => ⟨42, "slug"⟩) "acme" ["a", "b"]
          none).authCall
        = { installationId := 42
            repositoryNames := some ["a", "b"]
            permissions := none } :=
  ⟨by decide,
    (claim_C7_first_repository_probe (fun _ _ => ⟨42, "slug"⟩) "acme"
      ["a", "b"] none (by decide)).1,
    (claim_C7_first_repository_probe (fun _ _ => ⟨42, "slug"⟩) "acme"
      ["a", "b"] none (by decide)).2⟩

/-- Observable effects on the hosting runner. -/
inductive RunnerEffect where
  | info (msg : String)
  | setSecret (value : String)
  | setOutput (key : String) (value : String)
  | saveState (key : String) (value : String)
deriving Repr, DecidableEq

/-- Recognizer for diagnostic (log) effects. -/
def RunnerEffect.isInfo : RunnerEffect → Bool
  | RunnerEffect.info _ => true
  | _ => false

/-- The output-emission tail of `main` (main.js lines 130-141), run once the
token is acquired: `core.setSecret(token)` first, then the three outputs,
then — only when revocation is not suppressed — the two saved state values. -/
def emitResult (token : String) (installationIdOut : String) (appSlug : String)
    (expiresAt : String) (skipTokenRevoke : Bool) : List RunnerEffect :=
  [RunnerEffect.setSecret token,
   RunnerEffect.setOutput "token" token,
   RunnerEffect.setOutput "installation-id" installationIdOut,
   RunnerEffect.setOutput "app-slug" appSlug] ++
  (if skipTokenRevoke then []
   else
     [RunnerEffect.saveState "token" token,
      RunnerEffect.saveState "expiresAt" expiresAt])

/-- Effect trace of one successful run of `main`: the informational messages
of the parse, dispatch and retry phases (main.js lines 28-128) — all emitted
before the token exists, and built only from the inputs and attempt errors —
followed by the emission tail of lines 130-141. -/
def mainTrace (preInfoMessages : List String) (token : String)
    (installationIdOut : String) (appSlug : String) (expiresAt : String)
    (skipTokenRevoke : Bool) : List RunnerEffect :=
  preInfoMessages.map RunnerEffect.info ++
    emitResult token installationIdOut appSlug expiresAt skipTokenRevoke

/-- Claim C4: in every execution of the orchestrator the token is registered
with the secret-masking facility strictly before it is emitted as an output
or persisted as state — `setSecret token` is the first non-diagnostic effect
of the whole trace and the first effect of the emission tail; the emission
tail contains no diagnostic effect at all and every logged line of the run
is one of the pre-acquisition messages (so the token is never logged between
its creation and the secret sink); and the token is written to state exactly
when revocation is not suppressed. -/
theorem claim_C4_token_secrecy (preInfoMessages : List String) (token : String)
    (installationIdOut : String) (appSlug : String) (expiresAt : String)
    (skipTokenRevoke : Bool) :
    ((mainTrace preInfoMessages token installationIdOut appSlug expiresAt
          skipTokenRevoke).filter (fun e => !e.isInfo)).head?
      = some (RunnerEffect.setSecret token) ∧
    (emitResult token installationIdOut appSlug expiresAt
          skipTokenRevoke).head?
      = some (RunnerEffect.setSecret token) ∧
    (∀ e ∈ emitResult token installationIdOut appSlug expiresAt
        skipTokenRevoke, e.isInfo = false) ∧
    (∀ m : String,
      RunnerEffect.info m ∈ mainTrace preInfoMessages token installationIdOut
          appSlug expiresAt skipTokenRevoke →
      m ∈ preInfoMessages) ∧
    (RunnerEffect.saveState "token" token ∈ mainTrace preInfoMessages token
        installationIdOut appSlug expiresAt skipTokenRevoke ↔
      skipTokenRevoke = false) := by
  have hinfo : (preInfoMessages.map RunnerEffect.info).filter
      (fun e => !e.isInfo) = [] := by
    rw [List.filter_eq_nil_iff]
    intro e he
    rw [List.mem_map] at he
    obtain ⟨m, _, rfl⟩ := he
    simp [RunnerEffect.isInfo]
  refine ⟨?_, ?_, ?_, ?_, ?_⟩
  · rw [mainTrace, List.filter_append, hinfo, List.nil_append]
    cases skipTokenRevoke <;> rfl
  · cases skipTokenRevoke <;> rfl
  · intro e he
    cases e with
    | info m =>
        exfalso
        cases skipTokenRevoke <;> simp [emitResult] at he
    | setSecret v => rfl
    | setOutput k v => rfl
    | saveState k v => rfl
  · intro m hm
    rw [mainTrace, List.mem_append] at hm
    rcases hm with hm | hm
    · rw [List.mem_map] at hm
      obtain ⟨m2, hm2, he⟩ := hm
      injection he with he2
      rwa [he2] at hm2
    · exfalso
      cases skipTokenRevoke <;>
        simp [emitResult] at hm
  · constructor
    · intro hm
      rw [mainTrace, List.mem_append] at hm
      rcases hm with hm | hm
      · rw [List.mem_map] at hm
        obtain ⟨m2, _, he⟩ := hm
        cases he
      · cases skipTokenRevoke with
        | false => rfl
        | true => simp [emitResult] at hm
    · intro hs
      rw [mainTrace, List.mem_append]
      right
      rw [hs]
      simp [emitResult]

/-- Witness for C4 on a concrete run: one diagnostic line, token `"tok"`,
revocation not suppressed — the secret registration leads the non-diagnostic
effects, the logged line is the pre-acquisition one, and the token is
persisted to state. -/
theorem claim_C4_token_secrecy_witness :
    ((mainTrace ["creating token"] "tok" "42" "slug" "2024-01-01T00:00:00Z"
          false).filter (fun e => !e.isInfo)).head?
      = some (RunnerEffect.setSecret "tok") ∧
      (RunnerEffect.info "creating token" ∈
          mainTrace ["creating token"] "tok" "42" "slug"
            "2024-01-01T00:00:00Z" false →
        "creating token" ∈ ["creating token"]) ∧
      (RunnerEffect.saveState "token" "tok" ∈
        mainTrace ["creating token"] "tok" "42" "slug" "2024-01-01T00:00:00Z"
          false) :=
  ⟨(claim_C4_token_secrecy ["creating token"] "tok" "42" "slug"
      "2024-01-01T00:00:00Z" false).1,
    fun h => (claim_C4_token_secrecy ["creating token"] "tok" "42" "slug"
      "2024-01-01T00:00:00Z" false).2.2.2.1 "creating token" h,
    ((claim_C4_token_secrecy ["creating token"] "tok" "42" "slug"
      "2024-01-01T00:00:00Z" false).2.2.2.2).mpr rfl⟩
